import Mathlib

/-!
Shallow embedding of the Shoe Haven e-commerce backend (src/server.py).

The document store is modelled as lists of records; `find_one` becomes
`findOne` (first match) and `update_one` becomes `updateOne` (rewrite the
first match); `insert_one` appends.  Monetary values (`price`, `total`,
`amount`, `amount_total`) are rationals; quantities are integers;
timestamps are naturals supplied by the caller, as are the UUIDs that the
handlers generate.  External effects (the Stripe session creation, the
Stripe status poll, webhook parsing/verification) enter as explicit
parameters: an `Except` value for the calls that may raise, the decoded
response for those that succeed.
-/

namespace ShoeApp

/-- A cart line item: `CartItem` model of server.py. -/
structure CartItem where
  product_id : String
  quantity : Int
  size : String
  color : String
deriving DecidableEq, Repr

/-- A stored cart document (collection `carts`). -/
structure Cart where
  id : String
  user_id : String
  items : List CartItem
  updated_at : Nat
deriving DecidableEq, Repr

/-- A stored product document (collection `products`); only the fields the
checkout and cart handlers read are carried. -/
structure Product where
  id : String
  price : ℚ
deriving DecidableEq, Repr

/-- A stored user document (collection `users`); only the fields the
handlers under verification read are carried. -/
structure User where
  id : String
  email : String
  role : String
deriving DecidableEq, Repr

/-- A stored payment transaction document (collection
`payment_transactions`).  The `metadata` dict of server.py holds a single
key `cart_id`, carried here as the field `cart_id`. -/
structure PaymentTransaction where
  id : String
  session_id : String
  user_id : String
  amount : ℚ
  currency : String
  status : String
  payment_status : String
  cart_id : String
  created_at : Nat
  updated_at : Option Nat
deriving DecidableEq, Repr

/-- A stored order document (collection `orders`). -/
structure Order where
  id : String
  user_id : String
  items : List CartItem
  total : ℚ
  status : String
  payment_session_id : String
  created_at : Nat
deriving DecidableEq, Repr

/-- The database state: one list per Mongo collection used by the
handlers under verification. -/
structure DB where
  users : List User
  products : List Product
  carts : List Cart
  orders : List Order
  payment_transactions : List PaymentTransaction
deriving DecidableEq, Repr

/-- Mongo `find_one`: the first document matching the filter. -/
def findOne (p : α → Bool) (l : List α) : Option α :=
  l.find? p

/-- Mongo `update_one` with a `$set` update: rewrite the first document
matching the filter, leave the rest unchanged (no upsert). -/
def updateOne (p : α → Bool) (f : α → α) : List α → List α
  | [] => []
  | x :: xs => if p x then f x :: xs else x :: updateOne p f xs

/-- Errors surfaced as `HTTPException`s, plus a propagated provider
exception (an unhandled error from the Stripe client). -/
inductive ApiError where
  | badRequest (detail : String)
  | notFound (detail : String)
  | providerError (msg : String)
deriving DecidableEq, Repr

/-- The triple-key membership test of `add_to_cart` / `update_cart_item`:
`x["product_id"] == item.product_id and x["size"] == item.size and
x["color"] == item.color`. -/
def sameKey (x item : CartItem) : Bool :=
  x.product_id == item.product_id && x.size == item.size && x.color == item.color

/-- The item-list transformation of `add_to_cart` (server.py lines
280-286): if some entry matches the triple, the first such entry's
quantity is incremented; otherwise the item is appended. -/
def addItemToList (item : CartItem) : List CartItem → List CartItem
  | [] => [item]
  | x :: xs =>
    if sameKey x item then { x with quantity := x.quantity + item.quantity } :: xs
    else x :: addItemToList item xs

/-- The item-list transformation of `update_cart_item` (server.py lines
300-307): the first entry matching the triple is removed when the request
quantity is ≤ 0 and has its quantity overwritten otherwise; the loop
breaks after the first match, and no match leaves the list unchanged. -/
def updateItemInList (item : CartItem) : List CartItem → List CartItem
  | [] => []
  | x :: xs =>
    if sameKey x item then
      if item.quantity ≤ 0 then xs
      else { x with quantity := item.quantity } :: xs
    else x :: updateItemInList item xs

/-- `POST /cart/add` (server.py lines 273-292).  `new_cart_id` is the UUID
generated when the user has no cart yet; `now` the current timestamp. -/
def add_to_cart (item : CartItem) (user_id new_cart_id : String) (now : Nat)
    (db : DB) : DB :=
  let carts0 :=
    match findOne (fun c => c.user_id == user_id) db.carts with
    | some _ => db.carts
    | none => db.carts ++ [{ id := new_cart_id, user_id := user_id, items := [],
                             updated_at := now }]
  let items :=
    match findOne (fun c => c.user_id == user_id) db.carts with
    | some c => c.items
    | none => []
  { db with carts := (updateOne (fun c => c.user_id == user_id)
      (fun c => { c with items := addItemToList item items, updated_at := now })
      carts0) }

/-- `PUT /cart/update` (server.py lines 294-313). -/
def update_cart_item (item : CartItem) (user_id : String) (now : Nat)
    (db : DB) : DB × Except ApiError String :=
  match findOne (fun c => c.user_id == user_id) db.carts with
  | none => (db, .error (.notFound "Cart not found"))
  | some c =>
    ({ db with carts := (updateOne (fun x => x.user_id == user_id)
        (fun x => { x with items := updateItemInList item c.items, updated_at := now })
        db.carts) },
     .ok "Cart updated")

/-- `DELETE /cart/clear` (server.py lines 315-321). -/
def clear_cart (user_id : String) (now : Nat) (db : DB) : DB :=
  { db with carts := (updateOne (fun c => c.user_id == user_id)
      (fun c => { c with items := [], updated_at := now }) db.carts) }

/-- The server-side total of `create_checkout_session` (lines 332-336):
for each line item, current catalog price × quantity; items whose product
is no longer in the catalog contribute nothing. -/
def cartTotal (products : List Product) (items : List CartItem) : ℚ :=
  (items.map (fun it =>
    match findOne (fun p => p.id == it.product_id) products with
    | some p => p.price * (it.quantity : ℚ)
    | none => 0)).sum

/-- The provider's response to opening a checkout session
(`CheckoutSessionResponse`). -/
structure CheckoutSessionResponse where
  url : String
  session_id : String
deriving DecidableEq, Repr

/-- The provider's response to a status poll (`CheckoutStatusResponse`);
`amount_total` is in cents. -/
structure CheckoutStatusResponse where
  status : String
  payment_status : String
  amount_total : ℚ
  currency : String
deriving DecidableEq, Repr

/-- The body returned by `GET /checkout/status/{session_id}`: the four
provider status fields, copied through. -/
structure StatusReply where
  status : String
  payment_status : String
  amount_total : ℚ
  currency : String
deriving DecidableEq, Repr

def statusReply (st : CheckoutStatusResponse) : StatusReply :=
  { status := st.status, payment_status := st.payment_status,
    amount_total := st.amount_total, currency := st.currency }

/-- The decoded, signature-verified webhook event
(`handle_webhook`'s response). -/
structure WebhookResponse where
  session_id : String
  payment_status : String
deriving DecidableEq, Repr

/-- The `$set` payload applied to a payment transaction when payment is
confirmed, identical in `get_checkout_status` (lines 388-391) and
`stripe_webhook` (lines 427-430): status `complete`, payment_status
`paid`, fresh `updated_at`. -/
def markPaid (now : Nat) (t : PaymentTransaction) : PaymentTransaction :=
  { t with status := "complete", payment_status := "paid", updated_at := some now }

/-- `POST /checkout/create-session` (server.py lines 325-374).
`providerResult` is the outcome of `stripe_checkout.create_checkout_session`
(an exception aborts the handler before any write); `transaction_id` the
UUID generated for the local record.  Returns the new database state and
either an error or the `(url, session_id)` response. -/
def create_checkout_session (providerResult : Except String CheckoutSessionResponse)
    (user_id transaction_id : String) (now : Nat) (db : DB) :
    DB × Except ApiError (String × String) :=
  match findOne (fun c => c.user_id == user_id) db.carts with
  | none => (db, .error (.badRequest "Cart is empty"))
  | some cart =>
    if cart.items = [] then (db, .error (.badRequest "Cart is empty"))
    else
      let total := cartTotal db.products cart.items
      if total ≤ 0 then (db, .error (.badRequest "Invalid cart total"))
      else
        match providerResult with
        | .error e => (db, .error (.providerError e))
        | .ok session =>
          ({ db with payment_transactions := (db.payment_transactions ++
              [{ id := transaction_id, session_id := session.session_id,
                 user_id := user_id, amount := total, currency := "usd",
                 status := "pending", payment_status := "initiated",
                 cart_id := cart.id, created_at := now, updated_at := none }]) },
           .ok (session.url, session.session_id))

/-- `GET /checkout/status/{session_id}` (server.py lines 376-413).
`st` is the provider's answer to the status poll, `user_id` the
authenticated caller, `order_id` the UUID generated if an order is
created, `now` the current timestamp. -/
def get_checkout_status (st : CheckoutStatusResponse) (user_id session_id order_id : String)
    (now : Nat) (db : DB) : DB × StatusReply :=
  let db' :=
    if st.payment_status == "paid" then
      match findOne (fun t => t.session_id == session_id) db.payment_transactions with
      | none => db
      | some t =>
        if t.payment_status ≠ "paid" then
          let db1 : DB := { db with payment_transactions :=
            (updateOne (fun t => t.session_id == session_id) (markPaid now)
              db.payment_transactions) }
          match findOne (fun c => c.user_id == user_id) db1.carts with
          | none => db1
          | some c =>
            if c.items = [] then db1
            else
              { db1 with
                orders := (db1.orders ++
                  [{ id := order_id, user_id := user_id, items := c.items,
                     total := st.amount_total / 100, status := "confirmed",
                     payment_session_id := session_id, created_at := now }]),
                carts := (updateOne (fun c => c.user_id == user_id)
                  (fun c => { c with items := [] }) db1.carts) }
        else db
    else db
  (db', statusReply st)

/-- `POST /webhook/stripe` (server.py lines 415-435).  `wh` is the outcome
of `handle_webhook` (signature verification + decoding); any exception is
caught, logged and acknowledged.  The Bool is the `received`
acknowledgement, always true. -/
def stripe_webhook (wh : Except String WebhookResponse) (now : Nat) (db : DB) :
    DB × Bool :=
  match wh with
  | .error _ => (db, true)
  | .ok r =>
    if r.payment_status == "paid" then
      ({ db with payment_transactions :=
          (updateOne (fun t => t.session_id == r.session_id) (markPaid now)
            db.payment_transactions) }, true)
    else (db, true)

/-- The response of `GET /admin/stats`. -/
structure AdminStats where
  total_products : Nat
  total_orders : Nat
  total_users : Nat
  total_revenue : ℚ
deriving DecidableEq, Repr

/-- `GET /admin/stats` (server.py lines 451-466): `count_documents({})` is
the list length; the revenue query is `find({}).to_list(1000)`, i.e. at
most the first 1000 order documents. -/
def get_admin_stats (db : DB) : AdminStats :=
  { total_products := db.products.length,
    total_orders := db.orders.length,
    total_users := db.users.length,
    total_revenue := ((db.orders.take 1000).map (fun o => o.total)).sum }

/-- The triple key of a line item. -/
def keyOf (x : CartItem) : String × String × String :=
  (x.product_id, x.size, x.color)

/-- The cart invariant: at most one line-item entry per distinct
(product_id, size, color) triple. -/
def NoDupKeys (items : List CartItem) : Prop :=
  (items.map keyOf).Nodup

instance (items : List CartItem) : Decidable (NoDupKeys items) := by
  unfold NoDupKeys; infer_instance

/-! Concrete fixtures used by witnesses and counterexamples.  Values are
taken from the seeded catalog (`Classic Oxford`, price 485, size 9,
color Black). -/

def item1 : CartItem :=
  { product_id := "p1", quantity := 2, size := "9", color := "Black" }

def prod1 : Product := { id := "p1", price := 485 }

def user1 : User := { id := "u1", email := "a@b.c", role := "user" }

def cart1 : Cart := { id := "c1", user_id := "u1", items := [item1], updated_at := 0 }

def txn0 : PaymentTransaction :=
  { id := "t1", session_id := "s1", user_id := "u1", amount := 970, currency := "usd",
    status := "pending", payment_status := "initiated", cart_id := "c1",
    created_at := 0, updated_at := none }

def st0 : CheckoutStatusResponse :=
  { status := "complete", payment_status := "paid", amount_total := 97000,
    currency := "usd" }

def sess0 : CheckoutSessionResponse :=
  { url := "https://pay.example/s1", session_id := "s1" }

def db0 : DB :=
  { users := [user1], products := [prod1], carts := [], orders := [],
    payment_transactions := [txn0] }

def dbW1 : DB :=
  { users := [user1], products := [prod1], carts := [cart1], orders := [],
    payment_transactions := [txn0] }

def dbEmpty : DB :=
  { users := [], products := [], carts := [], orders := [],
    payment_transactions := [] }

def txnA : PaymentTransaction :=
  { id := "t2", session_id := "s1", user_id := "alice", amount := 970, currency := "usd",
    status := "pending", payment_status := "initiated", cart_id := "ca",
    created_at := 0, updated_at := none }

def cartB : Cart := { id := "cb", user_id := "bob", items := [item1], updated_at := 0 }

def dbX : DB :=
  { users := [], products := [prod1], carts := [cartB], orders := [],
    payment_transactions := [txnA] }

def txn7 : PaymentTransaction :=
  { id := "t7", session_id := "s1", user_id := "u1", amount := 970, currency := "usd",
    status := "complete", payment_status := "paid", cart_id := "c1",
    created_at := 0, updated_at := some 5 }

def db7 : DB :=
  { users := [], products := [], carts := [], orders := [],
    payment_transactions := [txn7] }

def wr7 : WebhookResponse := { session_id := "s1", payment_status := "paid" }

def bigOrder : Order :=
  { id := "o", user_id := "u", items := [], total := 1, status := "confirmed",
    payment_session_id := "s", created_at := 0 }

def db1001 : DB :=
  { users := [], products := [], carts := [], orders := List.replicate 1001 bigOrder,
    payment_transactions := [] }

/-! Helper lemmas about the document-store primitives. -/

theorem mem_updateOne {p : α → Bool} {f : α → α} {l : List α} {x : α}
    (hx : x ∈ updateOne p f l) : x ∈ l ∨ ∃ y, y ∈ l ∧ x = f y := by
  induction l with
  | nil => simp [updateOne] at hx
  | cons a as ih =>
    simp only [updateOne] at hx
    by_cases h : p a
    · rw [if_pos h] at hx
      rcases List.mem_cons.mp hx with h1 | h1
      · exact Or.inr ⟨a, List.mem_cons_self a as, h1⟩
      · exact Or.inl (List.mem_cons_of_mem a h1)
    · rw [if_neg h] at hx
      rcases List.mem_cons.mp hx with h1 | h1
      · exact Or.inl (h1 ▸ List.mem_cons_self a as)
      · rcases ih h1 with h2 | ⟨y, hy, hxy⟩
        · exact Or.inl (List.mem_cons_of_mem a h2)
        · exact Or.inr ⟨y, List.mem_cons_of_mem a hy, hxy⟩

theorem findOne_updateOne {p : α → Bool} (f : α → α) (l : List α)
    (hf : ∀ x, p (f x) = p x) :
    findOne p (updateOne p f l) = (findOne p l).map f := by
  induction l with
  | nil => rfl
  | cons a as ih =>
    by_cases h : p a
    · simp [updateOne, findOne, h, List.find?_cons_of_pos, hf]
    · simpa [updateOne, findOne, h, List.find?_cons_of_neg, hf] using ih

/-! Helper lemmas about the cart line-item operations. -/

theorem keyOf_set_quantity (x : CartItem) (q : Int) :
    keyOf { x with quantity := q } = keyOf x := rfl

theorem sameKey_iff {x item : CartItem} :
    sameKey x item = true ↔ keyOf x = keyOf item := by
  simp [sameKey, keyOf, Prod.ext_iff, and_assoc]

theorem keys_addItemToList (item : CartItem) (l : List CartItem) :
    ∀ k ∈ (addItemToList item l).map keyOf, k ∈ l.map keyOf ∨ k = keyOf item := by
  induction l with
  | nil => simp [addItemToList]
  | cons x xs ih =>
    intro k hk
    by_cases h : sameKey x item
    · rw [addItemToList, if_pos h] at hk
      rcases List.mem_map.mp hk with ⟨y, hy, hky⟩
      rcases List.mem_cons.mp hy with h1 | h1
      · exact Or.inl (by simp [← hky, h1, keyOf_set_quantity])
      · exact Or.inl (by simp; exact Or.inr ⟨y, h1, hky⟩)
    · rw [addItemToList, if_neg h] at hk
      rcases List.mem_map.mp hk with ⟨y, hy, hky⟩
      rcases List.mem_cons.mp hy with h1 | h1
      · exact Or.inl (by simp [← hky, h1])
      · rcases ih k (List.mem_map.mpr ⟨y, h1, hky⟩) with h2 | h2
        · exact Or.inl (by simp at h2 ⊢; exact Or.inr h2)
        · exact Or.inr h2

theorem noDupKeys_addItemToList {l : List CartItem} (item : CartItem)
    (h : NoDupKeys l) : NoDupKeys (addItemToList item l) := by
  induction l with
  | nil => simp [addItemToList, NoDupKeys]
  | cons x xs ih =>
    simp only [NoDupKeys, List.map_cons, List.nodup_cons] at h
    obtain ⟨hx, hxs⟩ := h
    by_cases hk : sameKey x item
    · rw [addItemToList, if_pos hk]
      simp only [NoDupKeys, List.map_cons, List.nodup_cons, keyOf_set_quantity]
      exact ⟨hx, hxs⟩
    · rw [addItemToList, if_neg hk]
      simp only [NoDupKeys, List.map_cons, List.nodup_cons]
      refine ⟨fun hmem => ?_, ih hxs⟩
      rcases keys_addItemToList item xs _ hmem with h1 | h1
      · exact hx h1
      · exact hk (sameKey_iff.mpr h1)

theorem keys_updateItemInList_sublist (item : CartItem) (l : List CartItem) :
    ((updateItemInList item l).map keyOf).Sublist (l.map keyOf) := by
  induction l with
  | nil => simp [updateItemInList]
  | cons x xs ih =>
    by_cases h : sameKey x item
    · by_cases hq : item.quantity ≤ 0
      · rw [updateItemInList, if_pos h, if_pos hq]
        exact List.sublist_cons_self (keyOf x) (List.map keyOf xs)
      · rw [updateItemInList, if_pos h, if_neg hq]
        simp [keyOf_set_quantity]
    · rw [updateItemInList, if_neg h]
      simpa using ih.cons₂ (keyOf x)

theorem noDupKeys_updateItemInList {l : List CartItem} (item : CartItem)
    (h : NoDupKeys l) : NoDupKeys (updateItemInList item l) :=
  (keys_updateItemInList_sublist item l).nodup h

theorem updateItemInList_no_match {item : CartItem} {l : List CartItem}
    (h : ∀ x ∈ l, sameKey x item = false) : updateItemInList item l = l := by
  induction l with
  | nil => rfl
  | cons x xs ih =>
    have hx := h x (List.mem_cons_self x xs)
    rw [updateItemInList, if_neg (by simp [hx]), ih (fun y hy => h y (List.mem_cons_of_mem x hy))]

/-! Behaviour lemmas for the checkout status poll (server.py lines
376-413), one per control-flow outcome of the paid branch. -/

theorem get_checkout_status_transition
    (st : CheckoutStatusResponse) (uid sid oid : String) (now : Nat) (db : DB)
    {t : PaymentTransaction} {c : Cart}
    (hpaid : st.payment_status = "paid")
    (ht : findOne (fun x => x.session_id == sid) db.payment_transactions = some t)
    (htnot : t.payment_status ≠ "paid")
    (hc : findOne (fun x => x.user_id == uid) db.carts = some c)
    (hne : c.items ≠ []) :
    get_checkout_status st uid sid oid now db =
      ({ db with
          payment_transactions := (updateOne (fun x => x.session_id == sid) (markPaid now)
            db.payment_transactions),
          orders := (db.orders ++
            [{ id := oid, user_id := uid, items := c.items,
               total := st.amount_total / 100, status := "confirmed",
               payment_session_id := sid, created_at := now }]),
          carts := (updateOne (fun x => x.user_id == uid)
            (fun x => { x with items := [] }) db.carts) },
       statusReply st) := by
  simp only [get_checkout_status, hpaid, beq_self_eq_true, if_true, ht, ne_eq, htnot,
    not_false_eq_true, hc, hne, if_false]

theorem get_checkout_status_no_cart
    (st : CheckoutStatusResponse) (uid sid oid : String) (now : Nat) (db : DB)
    {t : PaymentTransaction}
    (hpaid : st.payment_status = "paid")
    (ht : findOne (fun x => x.session_id == sid) db.payment_transactions = some t)
    (htnot : t.payment_status ≠ "paid")
    (hc : findOne (fun x => x.user_id == uid) db.carts = none) :
    get_checkout_status st uid sid oid now db =
      ({ db with payment_transactions := (updateOne (fun x => x.session_id == sid)
          (markPaid now) db.payment_transactions) },
       statusReply st) := by
  simp only [get_checkout_status, hpaid, beq_self_eq_true, if_true, ht, ne_eq, htnot,
    not_false_eq_true, hc, if_false]

theorem get_checkout_status_empty_cart
    (st : CheckoutStatusResponse) (uid sid oid : String) (now : Nat) (db : DB)
    {t : PaymentTransaction} {c : Cart}
    (hpaid : st.payment_status = "paid")
    (ht : findOne (fun x => x.session_id == sid) db.payment_transactions = some t)
    (htnot : t.payment_status ≠ "paid")
    (hc : findOne (fun x => x.user_id == uid) db.carts = some c)
    (hemp : c.items = []) :
    get_checkout_status st uid sid oid now db =
      ({ db with payment_transactions := (updateOne (fun x => x.session_id == sid)
          (markPaid now) db.payment_transactions) },
       statusReply st) := by
  simp only [get_checkout_status, hpaid, beq_self_eq_true, if_true, ht, ne_eq, htnot,
    not_false_eq_true, hc, hemp, if_true]

theorem get_checkout_status_pure_read
    (st : CheckoutStatusResponse) (uid sid oid : String) (now : Nat) (db : DB)
    {t : PaymentTransaction}
    (ht : findOne (fun x => x.session_id == sid) db.payment_transactions = some t)
    (htpaid : t.payment_status = "paid") :
    get_checkout_status st uid sid oid now db = (db, statusReply st) := by
  by_cases hp : (st.payment_status == "paid") = true
  · simp only [get_checkout_status, hp, if_true, ht, ne_eq, htpaid, not_true_eq_false,
      if_false]
  · simp [get_checkout_status, hp]

/-- C1: when the provider reports payment_status = paid for a session whose
stored transaction exists and is not yet paid and whose caller's cart is
nonempty (the scenario the claim describes: "the first invocation performs
the transition"), invoking the status check twice in a row creates exactly
one order: the first call grows the orders collection by exactly one, and
the second call, finding the stored transaction already marked paid,
returns the same provider status fields and performs no state change at
all (the pair it returns is exactly the first call's state and reply). -/
theorem claim_C1_checkStatus_idempotent
    (st : CheckoutStatusResponse) (uid sid oid1 oid2 : String) (now1 now2 : Nat)
    (db : DB) (t : PaymentTransaction) (c : Cart)
    (hpaid : st.payment_status = "paid")
    (ht : findOne (fun x => x.session_id == sid) db.payment_transactions = some t)
    (htnot : t.payment_status ≠ "paid")
    (hc : findOne (fun x => x.user_id == uid) db.carts = some c)
    (hne : c.items ≠ []) :
    ((get_checkout_status st uid sid oid1 now1 db).1.orders.length
        = db.orders.length + 1)
    ∧ get_checkout_status st uid sid oid2 now2
        (get_checkout_status st uid sid oid1 now1 db).1
      = ((get_checkout_status st uid sid oid1 now1 db).1,
         (get_checkout_status st uid sid oid1 now1 db).2) := by
  have h1 := get_checkout_status_transition st uid sid oid1 now1 db hpaid ht htnot hc hne
  constructor
  · rw [h1]; simp
  · rw [h1]
    have hfind : findOne (fun x => x.session_id == sid)
        (updateOne (fun x => x.session_id == sid) (markPaid now1) db.payment_transactions)
        = some (markPaid now1 t) := by
      rw [findOne_updateOne (p := fun x => x.session_id == sid) (markPaid now1)
        db.payment_transactions (fun x => rfl), ht]
      rfl
    exact get_checkout_status_pure_read st uid sid oid2 now2 _ hfind rfl

/-- Witness for C1 on a concrete state: user u1 has cart [item1] and a
pending transaction for session s1; the provider reports paid. -/
theorem claim_C1_witness :
    ((get_checkout_status st0 "u1" "s1" "o1" 1 dbW1).1.orders.length
        = dbW1.orders.length + 1)
    ∧ get_checkout_status st0 "u1" "s1" "o2" 2
        (get_checkout_status st0 "u1" "s1" "o1" 1 dbW1).1
      = ((get_checkout_status st0 "u1" "s1" "o1" 1 dbW1).1,
         (get_checkout_status st0 "u1" "s1" "o1" 1 dbW1).2) :=
  claim_C1_checkStatus_idempotent st0 "u1" "s1" "o1" "o2" 1 2 dbW1 txn0 cart1
    (by decide) (by decide) (by decide) (by decide) (by decide)

/-- C2 counterexample: the claim asserts unconditionally that the paid
transition creates a new Order, but when the calling user has no cart (or
an empty one) the code marks the transaction paid and creates no order.
Here the claim's stated preconditions hold (provider paid, stored
transaction for s1 not yet paid) yet the orders collection stays empty. -/
theorem claim_C2_counterexample :
    st0.payment_status = "paid"
    ∧ findOne (fun x => x.session_id == "s1") db0.payment_transactions = some txn0
    ∧ txn0.payment_status ≠ "paid"
    ∧ (get_checkout_status st0 "u1" "s1" "o1" 3 db0).1.orders = []
    ∧ (get_checkout_status st0 "u1" "s1" "o1" 3 db0).1.payment_transactions
        ≠ db0.payment_transactions := by
  refine ⟨rfl, by decide, by decide, by decide, by decide⟩

/-- C2 (amended): when the status check observes the provider reporting
paid and the stored transaction not yet paid, it marks that transaction
complete/paid; if moreover the caller's cart exists and has items, it
creates a new confirmed Order snapshotting those items with total =
provider-reported amount_total (cents) / 100 and empties the cart;
if the cart is absent or empty, no Order is created. -/
theorem claim_C2_paid_transition
    (st : CheckoutStatusResponse) (uid sid oid : String) (now : Nat) (db : DB)
    (t : PaymentTransaction)
    (hpaid : st.payment_status = "paid")
    (ht : findOne (fun x => x.session_id == sid) db.payment_transactions = some t)
    (htnot : t.payment_status ≠ "paid") :
    (findOne (fun x => x.session_id == sid)
        (get_checkout_status st uid sid oid now db).1.payment_transactions
      = some { t with status := "complete", payment_status := "paid",
                      updated_at := some now })
    ∧ (∀ c : Cart, findOne (fun x => x.user_id == uid) db.carts = some c →
        c.items ≠ [] →
        (get_checkout_status st uid sid oid now db).1.orders
          = db.orders ++
            [{ id := oid, user_id := uid, items := c.items,
               total := st.amount_total / 100, status := "confirmed",
               payment_session_id := sid, created_at := now }]
        ∧ findOne (fun x => x.user_id == uid)
            (get_checkout_status st uid sid oid now db).1.carts
          = some { c with items := [] })
    ∧ (findOne (fun x => x.user_id == uid) db.carts = none →
        (get_checkout_status st uid sid oid now db).1.orders = db.orders)
    ∧ (∀ c : Cart, findOne (fun x => x.user_id == uid) db.carts = some c →
        c.items = [] →
        (get_checkout_status st uid sid oid now db).1.orders = db.orders) := by
  have hmark : findOne (fun x => x.session_id == sid)
      (updateOne (fun x => x.session_id == sid) (markPaid now) db.payment_transactions)
      = some (markPaid now t) := by
    rw [findOne_updateOne (p := fun x => x.session_id == sid) (markPaid now)
      db.payment_transactions (fun x => rfl), ht]
    rfl
  refine ⟨?_, ?_, ?_, ?_⟩
  · rcases hcc : findOne (fun x => x.user_id == uid) db.carts with _ | c
    · rw [get_checkout_status_no_cart st uid sid oid now db hpaid ht htnot hcc]
      exact hmark
    · by_cases hemp : c.items = []
      · rw [get_checkout_status_empty_cart st uid sid oid now db hpaid ht htnot hcc hemp]
        exact hmark
      · rw [get_checkout_status_transition st uid sid oid now db hpaid ht htnot hcc hemp]
        exact hmark
  · intro c hc hne
    rw [get_checkout_status_transition st uid sid oid now db hpaid ht htnot hc hne]
    refine ⟨rfl, ?_⟩
    rw [findOne_updateOne (p := fun x => x.user_id == uid)
      (fun x => { x with items := [] }) db.carts (fun x => rfl), hc]
    rfl
  · intro hc
    rw [get_checkout_status_no_cart st uid sid oid now db hpaid ht htnot hc]
  · intro c hc hemp
    rw [get_checkout_status_empty_cart st uid sid oid now db hpaid ht htnot hc hemp]

/-- Witness for the amended C2 on a concrete state: the stored pending
transaction for s1 is marked complete/paid by the status poll. -/
theorem claim_C2_witness :
    findOne (fun x => x.session_id == "s1")
        (get_checkout_status st0 "u1" "s1" "o1" 3 db0).1.payment_transactions
      = some { txn0 with status := "complete", payment_status := "paid",
                         updated_at := some 3 } :=
  (claim_C2_paid_transition st0 "u1" "s1" "o1" 3 db0 txn0 (by decide) (by decide)
    (by decide)).1

/-- C3: the session-creation handler rejects an absent or item-less cart
with BadRequest "Cart is empty"; otherwise it recomputes the total as
`cartTotal`, the sum of current catalog price × quantity over the line
items (fresh catalog lookups — the handler receives no client price at
all), rejects a recomputed total ≤ 0 with BadRequest "Invalid cart
total", and on success persists a transaction whose amount is exactly that
recomputed total. -/
theorem claim_C3_create_session_validation
    (pr : Except String CheckoutSessionResponse) (uid tid : String) (now : Nat)
    (db : DB) :
    (findOne (fun c => c.user_id == uid) db.carts = none →
      create_checkout_session pr uid tid now db
        = (db, .error (.badRequest "Cart is empty")))
    ∧ (∀ c : Cart, findOne (fun c => c.user_id == uid) db.carts = some c →
        c.items = [] →
        create_checkout_session pr uid tid now db
          = (db, .error (.badRequest "Cart is empty")))
    ∧ (∀ c : Cart, findOne (fun c => c.user_id == uid) db.carts = some c →
        c.items ≠ [] → cartTotal db.products c.items ≤ 0 →
        create_checkout_session pr uid tid now db
          = (db, .error (.badRequest "Invalid cart total")))
    ∧ (∀ c : Cart, ∀ s : CheckoutSessionResponse,
        findOne (fun c => c.user_id == uid) db.carts = some c →
        c.items ≠ [] → ¬ cartTotal db.products c.items ≤ 0 → pr = .ok s →
        create_checkout_session pr uid tid now db
          = ({ db with payment_transactions := (db.payment_transactions ++
                [{ id := tid, session_id := s.session_id, user_id := uid,
                   amount := cartTotal db.products c.items, currency := "usd",
                   status := "pending", payment_status := "initiated",
                   cart_id := c.id, created_at := now, updated_at := none }]) },
             .ok (s.url, s.session_id))) := by
  refine ⟨?_, ?_, ?_, ?_⟩
  · intro h
    simp [create_checkout_session, h]
  · intro c hc hi
    simp [create_checkout_session, hc, hi]
  · intro c hc hi ht
    simp [create_checkout_session, hc, hi, ht]
  · intro c s hc hi ht hpr
    subst hpr
    simp [create_checkout_session, hc, hi, ht]

/-- Witness for C3 on a concrete state: a user with no cart is rejected
with BadRequest "Cart is empty". -/
theorem claim_C3_witness :
    create_checkout_session (Except.ok sess0) "u1" "t9" 0 dbEmpty
      = (dbEmpty, .error (.badRequest "Cart is empty")) :=
  (claim_C3_create_session_validation (Except.ok sess0) "u1" "t9" 0 dbEmpty).1 rfl

/-- C4: when the provider call raises (error or timeout) during session
creation, the handler aborts before `payment_transactions.insert_one`, so
the whole database state — in particular the transaction store — is
unchanged; the local record is only written in the success branch, after
the provider session is confirmed opened. -/
theorem claim_C4_provider_failure_writes_nothing
    (e : String) (uid tid : String) (now : Nat) (db : DB) :
    (create_checkout_session (.error e) uid tid now db).1 = db := by
  rcases h : findOne (fun c => c.user_id == uid) db.carts with _ | c
  · simp [create_checkout_session, h]
  · by_cases hi : c.items = []
    · simp [create_checkout_session, h, hi]
    · by_cases ht : cartTotal db.products c.items ≤ 0
      · simp [create_checkout_session, h, hi, ht]
      · simp [create_checkout_session, h, hi, ht]

/-- C5: assuming every stored cart has at most one line item per distinct
(product_id, size, color) triple, the invariant is preserved by add (which
increments the first matching entry's quantity instead of appending),
update and clear; and adding the same triple twice onto an empty item list
merges into a single entry whose quantity is the sum (so qty 2 then qty 3
yields one line with quantity 5). -/
theorem claim_C5_cart_key_invariant
    (item : CartItem) (uid ncid : String) (now : Nat) (db : DB)
    (hinv : ∀ c ∈ db.carts, NoDupKeys c.items) :
    (∀ c ∈ (add_to_cart item uid ncid now db).carts, NoDupKeys c.items)
    ∧ (∀ c ∈ (update_cart_item item uid now db).1.carts, NoDupKeys c.items)
    ∧ (∀ c ∈ (clear_cart uid now db).carts, NoDupKeys c.items)
    ∧ (∀ q1 q2 : Int,
        addItemToList { item with quantity := q2 }
          (addItemToList { item with quantity := q1 } [])
        = [{ item with quantity := q1 + q2 }]) := by
  refine ⟨?_, ?_, ?_, ?_⟩
  · intro c hc
    rcases hfind : findOne (fun x => x.user_id == uid) db.carts with _ | c0
    · simp only [add_to_cart, hfind] at hc
      rcases mem_updateOne hc with h1 | ⟨y, hy, rfl⟩
      · rcases List.mem_append.mp h1 with h2 | h2
        · exact hinv c h2
        · simp only [List.mem_singleton] at h2
          subst h2
          simp [NoDupKeys]
      · exact noDupKeys_addItemToList item (by simp [NoDupKeys])
    · simp only [add_to_cart, hfind] at hc
      rcases mem_updateOne hc with h1 | ⟨y, hy, rfl⟩
      · exact hinv c h1
      · exact noDupKeys_addItemToList item
          (hinv c0 (List.mem_of_find?_eq_some hfind))
  · intro c hc
    rcases hfind : findOne (fun x => x.user_id == uid) db.carts with _ | c0
    · simp only [update_cart_item, hfind] at hc
      exact hinv c hc
    · simp only [update_cart_item, hfind] at hc
      rcases mem_updateOne hc with h1 | ⟨y, hy, rfl⟩
      · exact hinv c h1
      · exact noDupKeys_updateItemInList item
          (hinv c0 (List.mem_of_find?_eq_some hfind))
  · intro c hc
    simp only [clear_cart] at hc
    rcases mem_updateOne hc with h1 | ⟨y, hy, rfl⟩
    · exact hinv c h1
    · simp [NoDupKeys]
  · intro q1 q2
    simp [addItemToList, sameKey]

/-- Witness for C5 on a concrete state, including the spec's example:
adding (p1, size 9, Black) with quantity 2 and then 3 yields exactly one
line item with quantity 5. -/
theorem claim_C5_witness :
    addItemToList { item1 with quantity := 3 }
        (addItemToList { item1 with quantity := 2 } [])
      = [{ item1 with quantity := 5 }] := by
  rw [(claim_C5_cart_key_invariant item1 "u1" "nc" 9 dbW1 (by decide)).2.2.2 2 3]
  decide

/-- C6: cart update fails with NotFound when the user has no cart;
otherwise it succeeds and rewrites the cart's items through
`updateItemInList`, which removes the first line item matching the
(product_id, size, color) triple when the given quantity is ≤ 0, overwrites
its quantity with the given value (absolute set, not increment) when it is
positive, and leaves the item list unchanged — a no-op — when no line item
matches the triple. -/
theorem claim_C6_update_cart
    (item : CartItem) (uid : String) (now : Nat) (db : DB) :
    (findOne (fun c => c.user_id == uid) db.carts = none →
      update_cart_item item uid now db = (db, .error (.notFound "Cart not found")))
    ∧ (∀ c : Cart, findOne (fun c => c.user_id == uid) db.carts = some c →
        (update_cart_item item uid now db).2 = .ok "Cart updated"
        ∧ findOne (fun x => x.user_id == uid)
            (update_cart_item item uid now db).1.carts
          = some { c with items := updateItemInList item c.items, updated_at := now })
    ∧ (∀ l : List CartItem, (∀ x ∈ l, sameKey x item = false) →
        updateItemInList item l = l)
    ∧ (∀ x : CartItem, ∀ l : List CartItem, sameKey x item = true →
        item.quantity ≤ 0 → updateItemInList item (x :: l) = l)
    ∧ (∀ x : CartItem, ∀ l : List CartItem, sameKey x item = true →
        0 < item.quantity →
        updateItemInList item (x :: l) = { x with quantity := item.quantity } :: l) := by
  refine ⟨?_, ?_, ?_, ?_, ?_⟩
  · intro h
    simp [update_cart_item, h]
  · intro c hc
    refine ⟨by simp [update_cart_item, hc], ?_⟩
    simp only [update_cart_item, hc]
    rw [findOne_updateOne (p := fun x => x.user_id == uid)
      (fun x => { x with items := updateItemInList item c.items, updated_at := now })
      db.carts (fun x => rfl), hc]
    rfl
  · intro l h
    exact updateItemInList_no_match h
  · intro x l h hq
    rw [updateItemInList, if_pos h, if_pos hq]
  · intro x l h hq
    rw [updateItemInList, if_pos h, if_neg (not_le.mpr hq)]

/-- Witness for C6 on a concrete state: a user with no cart gets
NotFound. -/
theorem claim_C6_witness :
    update_cart_item item1 "u1" 5 dbEmpty
      = (dbEmpty, .error (.notFound "Cart not found")) :=
  (claim_C6_update_cart item1 "u1" 5 dbEmpty).1 rfl

/-- C7 counterexample: the claim says redelivering a paid event for a
transaction already marked paid leaves the stored record unchanged, but
the handler unconditionally re-runs the `$set` update, which rewrites
`updated_at`: transaction t7 is already complete/paid with updated_at 5,
and after redelivery at time 6 the stored collection differs (only) in
that timestamp. -/
theorem claim_C7_counterexample :
    txn7.payment_status = "paid"
    ∧ txn7.status = "complete"
    ∧ (stripe_webhook (.ok wr7) 6 db7).1.payment_transactions
        ≠ db7.payment_transactions
    ∧ (stripe_webhook (.ok wr7) 6 db7).1.payment_transactions
        = [{ txn7 with updated_at := some 6 }] := by
  refine ⟨rfl, rfl, by decide, by decide⟩

/-- C7 (amended): a verified paid webhook event marks the matching
transaction complete/paid and is acknowledged; redelivering it for a
transaction already marked paid rewrites the same status and
payment_status values, so the stored record is unchanged except for
`updated_at`, which is refreshed to the delivery time. -/
theorem claim_C7_webhook_paid
    (r : WebhookResponse) (now : Nat) (db : DB) (t : PaymentTransaction)
    (hpaid : r.payment_status = "paid")
    (ht : findOne (fun x => x.session_id == r.session_id) db.payment_transactions
      = some t) :
    ((stripe_webhook (.ok r) now db).2 = true)
    ∧ findOne (fun x => x.session_id == r.session_id)
        (stripe_webhook (.ok r) now db).1.payment_transactions
      = some { t with status := "complete", payment_status := "paid",
                      updated_at := some now }
    ∧ (t.status = "complete" → t.payment_status = "paid" →
        findOne (fun x => x.session_id == r.session_id)
          (stripe_webhook (.ok r) now db).1.payment_transactions
        = some { t with updated_at := some now }) := by
  have hb : (r.payment_status == "paid") = true := by simp [hpaid]
  have hupd : findOne (fun x => x.session_id == r.session_id)
      (updateOne (fun x => x.session_id == r.session_id) (markPaid now)
        db.payment_transactions)
      = some (markPaid now t) := by
    rw [findOne_updateOne (p := fun x => x.session_id == r.session_id) (markPaid now)
      db.payment_transactions (fun x => rfl), ht]
    rfl
  refine ⟨by simp [stripe_webhook, hb], ?_, ?_⟩
  · simp only [stripe_webhook, hb, if_true]
    exact hupd
  · intro hs hps
    simp only [stripe_webhook, hb, if_true]
    rw [hupd]
    obtain ⟨i, si, u, a, cu, s, ps, ci, ca, ua⟩ := t
    simp only at hs hps
    subst hs
    subst hps
    rfl

/-- Witness for the amended C7 on a concrete state: redelivery of the
paid event for the already-paid transaction t7 leaves everything but
updated_at unchanged. -/
theorem claim_C7_witness :
    findOne (fun x => x.session_id == "s1")
        (stripe_webhook (.ok wr7) 6 db7).1.payment_transactions
      = some { txn7 with updated_at := some 6 } :=
  (claim_C7_webhook_paid wr7 6 db7 txn7 (by decide) (by decide)).2.2 rfl rfl

/-- C8: a webhook request whose payload fails signature verification (the
handler's try block raises) changes no stored collection — the returned
state is exactly the input state — and is still acknowledged with
received = true. -/
theorem claim_C8_webhook_failure_acknowledged
    (e : String) (now : Nat) (db : DB) :
    stripe_webhook (.error e) now db = (db, true) := rfl

/-- C9 counterexample: the claim says total_revenue equals the sum of the
total field over all orders in every state, but the revenue query is
capped at 1000 documents: with 1001 orders of total 1 the handler reports
1000 while the sum over all orders is 1001 (the order count itself is
exact). -/
theorem claim_C9_counterexample :
    (get_admin_stats db1001).total_orders = 1001
    ∧ (get_admin_stats db1001).total_revenue = 1000
    ∧ (db1001.orders.map (fun o => o.total)).sum = 1001
    ∧ (get_admin_stats db1001).total_revenue
        ≠ (db1001.orders.map (fun o => o.total)).sum := by
  have horders : db1001.orders = List.replicate 1001 bigOrder := rfl
  have h1 : (get_admin_stats db1001).total_revenue = 1000 := by
    show ((db1001.orders.take 1000).map (fun o => o.total)).sum = 1000
    rw [horders, List.take_replicate, List.map_replicate, List.sum_replicate]
    norm_num [Nat.min_def, bigOrder, nsmul_eq_mul]
  have h2 : (db1001.orders.map (fun o => o.total)).sum = 1001 := by
    rw [horders, List.map_replicate, List.sum_replicate]
    norm_num [bigOrder, nsmul_eq_mul]
  refine ⟨?_, h1, h2, ?_⟩
  · show db1001.orders.length = 1001
    rw [horders, List.length_replicate]
  · rw [h1, h2]
    norm_num

/-- C9 (amended): the admin stats are the exact counts of products, orders
and users, with no time-windowing, and total_revenue is the sum of the
total field over the first 1000 orders (the revenue query is capped at
1000 documents); whenever there are at most 1000 orders this equals the
sum over all orders. -/
theorem claim_C9_admin_stats (db : DB) :
    (get_admin_stats db).total_products = db.products.length
    ∧ (get_admin_stats db).total_orders = db.orders.length
    ∧ (get_admin_stats db).total_users = db.users.length
    ∧ (get_admin_stats db).total_revenue
        = ((db.orders.take 1000).map (fun o => o.total)).sum
    ∧ (db.orders.length ≤ 1000 →
        (get_admin_stats db).total_revenue = (db.orders.map (fun o => o.total)).sum) := by
  refine ⟨rfl, rfl, rfl, rfl, fun h => ?_⟩
  simp [get_admin_stats, List.take_of_length_le h]

/-- Witness for the amended C9 on a concrete state with fewer than 1000
orders. -/
theorem claim_C9_witness :
    (get_admin_stats db7).total_revenue = (db7.orders.map (fun o => o.total)).sum :=
  (claim_C9_admin_stats db7).2.2.2.2 (by decide)

/-- C10: the status check looks the transaction up by session_id alone —
no hypothesis relates the stored transaction's user_id to the caller —
and the order it creates belongs to the calling user, snapshots the
calling user's cart, and it is the calling user's cart that is emptied.
In particular this holds when t.user_id differs from uid (see the
witness, where the transaction belongs to alice and bob polls). -/
theorem claim_C10_no_ownership_check
    (st : CheckoutStatusResponse) (uid sid oid : String) (now : Nat) (db : DB)
    (t : PaymentTransaction) (c : Cart)
    (hpaid : st.payment_status = "paid")
    (ht : findOne (fun x => x.session_id == sid) db.payment_transactions = some t)
    (htnot : t.payment_status ≠ "paid")
    (hc : findOne (fun x => x.user_id == uid) db.carts = some c)
    (hne : c.items ≠ []) :
    (get_checkout_status st uid sid oid now db).1.orders
      = db.orders ++
        [{ id := oid, user_id := uid, items := c.items,
           total := st.amount_total / 100, status := "confirmed",
           payment_session_id := sid, created_at := now }]
    ∧ findOne (fun x => x.user_id == uid)
        (get_checkout_status st uid sid oid now db).1.carts
      = some { c with items := [] } := by
  rw [get_checkout_status_transition st uid sid oid now db hpaid ht htnot hc hne]
  refine ⟨rfl, ?_⟩
  rw [findOne_updateOne (p := fun x => x.user_id == uid)
    (fun x => { x with items := [] }) db.carts (fun x => rfl), hc]
  rfl

/-- Witness for C10 on a concrete state in which the transaction for s1
belongs to alice but bob polls the status: the order is created for bob
from bob's cart, and bob's cart is emptied. -/
theorem claim_C10_witness :
    txnA.user_id ≠ "bob"
    ∧ (get_checkout_status st0 "bob" "s1" "o1" 4 dbX).1.orders
        = dbX.orders ++
          [{ id := "o1", user_id := "bob", items := cartB.items,
             total := st0.amount_total / 100, status := "confirmed",
             payment_session_id := "s1", created_at := 4 }]
    ∧ findOne (fun x => x.user_id == "bob")
        (get_checkout_status st0 "bob" "s1" "o1" 4 dbX).1.carts
      = some { cartB with items := [] } := by
  refine ⟨by decide, ?_, ?_⟩
  · exact (claim_C10_no_ownership_check st0 "bob" "s1" "o1" 4 dbX txnA cartB
      (by decide) (by decide) (by decide) (by decide) (by decide)).1
  · exact (claim_C10_no_ownership_check st0 "bob" "s1" "o1" 4 dbX txnA cartB
      (by decide) (by decide) (by decide) (by decide) (by decide)).2

end ShoeApp
